import Mathlib

/-!
Verification of the route-loading and contract/validation core of the
express-ts-starter repository.

The development shallowly embeds:

* a fragment of the zod validation library sufficient for the schemas the
  repository builds (`z.object` in its default strip mode, `z.string`,
  `z.coerce`-free scalars, `.optional()`), with a parse operation that
  returns either the parsed value or the full list of issues found
  (`Value`, `Schema`, `zparse`);
* the fluent contract builder of `src/contracts/ContractBuilder.ts`
  (`ContractBuilder`, `createContract`) and the earlier builder variant
  present in the repository (`ContractBuilder2`);
* the validation middleware, modelled from the specification because its
  source file is not part of the repository snapshot (`validateContract`);
* the route loader of `src/RouteLoader.ts` (`routeLoader`), with the file
  system, glob resolution and dynamic module loading abstracted into an
  environment record (`LoadEnv`).
-/

namespace S2P

/-! ## JavaScript data values

A `Value` is the JSON-like data that reaches a zod parse at runtime:
request bodies, query objects, params objects, and their parse results. -/

inductive Value where
  | vStr (s : String)
  | vNum (n : Int)
  | vBool (b : Bool)
  | vNull
  | vArr (items : List Value)
  | vObj (fields : List (String × Value))
deriving Repr, BEq

/-- An issue reported by a failed parse: the path of the offending field
and a human-readable message (zod's `ZodIssue`, reduced to the two
attributes the spec talks about). -/
abbrev Issue := List String × String

/-- The JavaScript `typeof`-style name zod uses in invalid-type messages. -/
def typeName : Value → String
  | .vStr _ => "string"
  | .vNum _ => "number"
  | .vBool _ => "boolean"
  | .vNull => "null"
  | .vArr _ => "array"
  | .vObj _ => "object"

/-! ## The zod fragment

`Schema` models the zod schemas the repository constructs.  `sObject`
models `z.object(shape)` in zod's default mode: unknown keys are
*stripped*, not rejected; a missing required key yields a `Required`
issue; issues of all fields are collected, not only the first.
`Shape` is the finite key-to-schema map of an object literal passed to
`z.object`. -/

mutual
inductive Schema where
  | sString
  | sNumber
  | sBool
  | sOptional (inner : Schema)
  | sObject (shape : Shape)
deriving Repr, BEq

inductive Shape where
  | nil
  | cons (key : String) (field : Schema) (rest : Shape)
deriving Repr, BEq
end

/-- How a field schema treats a missing key (zod: `optional` accepts the
absence, anything else issues `Required` at the key's path). -/
def parseMissing (k : String) : Schema → Except (List Issue) (Option Value)
  | .sOptional _ => .ok none
  | _ => .error [([k], "Required")]

/-- Re-root a field's issues under its key, as zod prepends the key to
each issue's path. -/
def atKey (k : String) (issues : List Issue) : List Issue :=
  issues.map (fun i => (k :: i.1, i.2))

mutual
/-- The parse operation of the zod fragment.  Mirrors
`schema.safeParse(value)`: success carries the parsed output, failure
carries every issue found. -/
def zparse : Schema → Value → Except (List Issue) Value
  | .sString, .vStr s => .ok (.vStr s)
  | .sString, v => .error [([], "Expected string, received " ++ typeName v)]
  | .sNumber, .vNum n => .ok (.vNum n)
  | .sNumber, v => .error [([], "Expected number, received " ++ typeName v)]
  | .sBool, .vBool b => .ok (.vBool b)
  | .sBool, v => .error [([], "Expected boolean, received " ++ typeName v)]
  | .sOptional inner, v => zparse inner v
  | .sObject shape, .vObj fields =>
    match parseShape shape fields with
    | .ok out => .ok (.vObj out)
    | .error issues => .error issues
  | .sObject _, v => .error [([], "Expected object, received " ++ typeName v)]

/-- Parse an object's fields against a shape, strip-mode: the output
keeps exactly the shape's keys (optional missing keys omitted), unknown
input keys are dropped, and issues of all fields are concatenated. -/
def parseShape : Shape → List (String × Value) → Except (List Issue) (List (String × Value))
  | .nil, _ => .ok []
  | .cons k s rest, fields =>
    let head : Except (List Issue) (Option Value) :=
      match fields.lookup k with
      | some v =>
        match zparse s v with
        | .ok pv => .ok (some pv)
        | .error issues => .error (atKey k issues)
      | none => parseMissing k s
    match head, parseShape rest fields with
    | .ok (some v), .ok out => .ok ((k, v) :: out)
    | .ok none, .ok out => .ok out
    | .ok _, .error issues => .error issues
    | .error issues, .ok _ => .error issues
    | .error issues, .error issues' => .error (issues ++ issues')
end

example : zparse (.sObject .nil) (.vObj [("extra", .vStr "1")]) = .ok (.vObj []) := rfl

example : zparse (.sObject (.cons "name" .sString .nil)) (.vObj []) =
    .error [(["name"], "Required")] := rfl

/-! ## Contract builder (`src/contracts/ContractBuilder.ts`)

The TypeScript class stores a frozen record `schemas : {body, query,
params}`; each facet setter returns a `new ContractBuilder` with exactly
one facet replaced; `build()` returns `z.object(this.schemas)`. -/

/-- `EMPTY_SCHEMA = z.object({})`: the default value of every facet. -/
def EMPTY_SCHEMA : Schema := .sObject .nil

/-- The frozen `schemas` record of a builder. -/
structure ContractSchemas where
  body : Schema
  query : Schema
  params : Schema
deriving Repr, BEq

structure ContractBuilder where
  schemas : ContractSchemas
deriving Repr, BEq

namespace ContractBuilder

/-- The constructor with its three defaults. -/
def new (body : Schema := EMPTY_SCHEMA) (query : Schema := EMPTY_SCHEMA)
    (params : Schema := EMPTY_SCHEMA) : ContractBuilder :=
  ⟨⟨body, query, params⟩⟩

/-- `body(schema)`: new builder with the body facet replaced. -/
def body (b : ContractBuilder) (schema : Schema) : ContractBuilder :=
  new schema b.schemas.query b.schemas.params

/-- `query(schema)`: new builder with the query facet replaced. -/
def query (b : ContractBuilder) (schema : Schema) : ContractBuilder :=
  new b.schemas.body schema b.schemas.params

/-- `params(schema)`: new builder with the params facet replaced. -/
def params (b : ContractBuilder) (schema : Schema) : ContractBuilder :=
  new b.schemas.body b.schemas.query schema

/-- `build() = z.object(this.schemas)`: the combined schema whose
top-level keys are `body`, `query`, `params`. -/
def build (b : ContractBuilder) : Schema :=
  .sObject (.cons "body" b.schemas.body
    (.cons "query" b.schemas.query
      (.cons "params" b.schemas.params .nil)))

end ContractBuilder

/-- `createContract()`: a fresh builder with all three facets defaulted. -/
def createContract : ContractBuilder := ContractBuilder.new

/-! ## The earlier contract builder variant (`src/unnamed/part_001`)

Same runtime content, stored in three separate private fields
(`_bodySchema`, `_querySchema`, `_paramsSchema`); its facet setters
accept any zod schema (`z.ZodTypeAny`), not only object schemas. -/

structure ContractBuilder2 where
  bodySchema : Schema
  querySchema : Schema
  paramsSchema : Schema
deriving Repr, BEq

namespace ContractBuilder2

def new (bodySchema : Schema := .sObject .nil) (querySchema : Schema := .sObject .nil)
    (paramsSchema : Schema := .sObject .nil) : ContractBuilder2 :=
  ⟨bodySchema, querySchema, paramsSchema⟩

def body (b : ContractBuilder2) (schema : Schema) : ContractBuilder2 :=
  new schema b.querySchema b.paramsSchema

def query (b : ContractBuilder2) (schema : Schema) : ContractBuilder2 :=
  new b.bodySchema schema b.paramsSchema

def params (b : ContractBuilder2) (schema : Schema) : ContractBuilder2 :=
  new b.bodySchema b.querySchema schema

/-- `build() = z.object({body: ..., query: ..., params: ...})`. -/
def build (b : ContractBuilder2) : Schema :=
  .sObject (.cons "body" b.bodySchema
    (.cons "query" b.querySchema
      (.cons "params" b.paramsSchema .nil)))

end ContractBuilder2

def createContract2 : ContractBuilder2 := ContractBuilder2.new

/-! ## Setter-call sequences

To reason about "any chain of facet setters", a chain is a list of
`SetterCall`s, replayed against a builder by `applyCalls`. -/

inductive SetterCall where
  | cBody (schema : Schema)
  | cQuery (schema : Schema)
  | cParams (schema : Schema)
deriving Repr, BEq

def applyCall (b : ContractBuilder) : SetterCall → ContractBuilder
  | .cBody s => b.body s
  | .cQuery s => b.query s
  | .cParams s => b.params s

def applyCalls (b : ContractBuilder) (calls : List SetterCall) : ContractBuilder :=
  calls.foldl applyCall b

def applyCall2 (b : ContractBuilder2) : SetterCall → ContractBuilder2
  | .cBody s => b.body s
  | .cQuery s => b.query s
  | .cParams s => b.params s

def applyCalls2 (b : ContractBuilder2) (calls : List SetterCall) : ContractBuilder2 :=
  calls.foldl applyCall2 b

/-- The final value of the body facet after replaying a chain: the last
`cBody` argument, or the starting value when the chain sets none. -/
def finalBody (start : Schema) (calls : List SetterCall) : Schema :=
  calls.foldl (fun acc c => match c with | .cBody s => s | _ => acc) start

/-- The final value of the query facet after replaying a chain. -/
def finalQuery (start : Schema) (calls : List SetterCall) : Schema :=
  calls.foldl (fun acc c => match c with | .cQuery s => s | _ => acc) start

/-- The final value of the params facet after replaying a chain. -/
def finalParams (start : Schema) (calls : List SetterCall) : Schema :=
  calls.foldl (fun acc c => match c with | .cParams s => s | _ => acc) start

/-- Whether a setter call passes an object schema (the common domain of
the two builder variants: the newer one only accepts `z.ZodObject`). -/
def SetterCall.isObjectCall : SetterCall → Prop
  | .cBody s => ∃ sh, s = .sObject sh
  | .cQuery s => ∃ sh, s = .sObject sh
  | .cParams s => ∃ sh, s = .sObject sh

/-! ## Validation middleware

The middleware `validateContract` is imported from `@/middlewares` by the
route module and the controller, but its source file is not part of the
repository snapshot, so it is modelled from the specification (§4.2). -/

/-- An incoming request as the middleware sees it: the three raw
substructures plus the `validated` field it may attach. -/
structure Request where
  body : Value
  query : Value
  params : Value
  validated : Option Value := none
deriving Repr, BEq

/-- What the middleware does with a request: pass the (possibly mutated)
request to the next step in the chain, or terminate with a status code
and a list of violations. -/
inductive MiddlewareOutcome where
  | callThrough (req : Request)
  | respond (status : Nat) (errors : List Issue)
deriving Repr, BEq

/-- The input the middleware assembles from the raw request. -/
def assembleInput (req : Request) : Value :=
  .vObj [("body", req.body), ("query", req.query), ("params", req.params)]

/-- Modelled from the spec: the validation middleware (`validateContract`
in `@/middlewares`, whose source file is missing from the snapshot — only
its callers appear).  Per §4.2: assemble `{body, query, params}` from the
request and run the contract's combined schema; on success attach the
parsed output under `validated` and invoke the next step; on failure
respond with a 400 error enumerating every violation found and do not
invoke the next step. -/
def validateContract (contract : Schema) (req : Request) : MiddlewareOutcome :=
  match zparse contract (assembleInput req) with
  | .ok parsed => .callThrough { req with validated := some parsed }
  | .error issues => .respond 400 issues

/-! ## Route loader (`src/RouteLoader.ts`)

The loader's interactions with the outside world — glob resolution,
`fs.statSync(file).isFile()`, dynamic `import` and the loaded module's
default export — are abstracted into a `LoadEnv` record over an abstract
router type.  The loader itself is the literal control flow of
`RouteLoader`: choose a pattern (`globPattern || defaultPattern`), glob
it (a throw is logged and leaves the file list empty), then fold over the
files, skipping those that are not regular files with the expected
extension and threading the router through each module's registration
function; any failure while loading or invoking a module is wrapped in an
error naming the file. -/

/-- Split a character list at every occurrence of a separator. -/
def splitOnChar (sep : Char) (cs : List Char) : List (List Char) :=
  cs.foldr (fun c acc =>
    match acc with
    | [] => [[c]]
    | g :: gs => if c = sep then [] :: g :: gs else (c :: g) :: gs) [[]]

/-- `String.toLowerCase()`, character by character. -/
def toLowerCase (s : String) : String :=
  String.mk (s.toList.map Char.toLower)

/-- `path.basename`-like helper: the last `/`-separated portion of a
path, after discounting trailing slashes. -/
def basename (p : String) : String :=
  let cs := p.toList.reverse.dropWhile (fun c => c = '/')
  String.mk ((cs.takeWhile (fun c => c ≠ '/')).reverse)

/-- `path.extname`: the suffix of the basename from its last dot; empty
when the basename has no dot, is `..`, or its only dot is leading. -/
def extname (p : String) : String :=
  let b := (basename p).toList
  if b = ['.', '.'] then ""
  else
    match splitOnChar '.' b with
    | [] => ""
    | [_] => ""
    | first :: rest =>
      if first.isEmpty && rest.length == 1 then ""
      else String.mk ('.' :: rest.getLastD [])

example : extname "src/routes/example.ts" = ".ts" := rfl
example : extname "dist/routes/example.js" = ".js" := rfl
example : extname "src/routes/.env" = "" := rfl
example : extname "src/routes/readme" = "" := rfl
example : extname "a.b.C" = ".C" := rfl

/-- The observable behavior of dynamically importing one candidate file:
the import throws, or the located default export is not callable (calling
it throws a `TypeError`), or it is a registration function, which itself
either returns a router or throws.  Causes are the `e.toString()` text
the loader embeds in its error message. -/
inductive ModuleOutcome (R : Type) where
  | importError (cause : String)
  | notFn (cause : String)
  | fn (register : R → Except String R)

/-- The loader's environment: the mode flag, glob resolution (which may
throw), the regular-file test, the module loader and the fresh router
`Router()` the fold starts from. -/
structure LoadEnv (R : Type) where
  isDevelopment : Bool
  glob : String → Except String (List String)
  statIsFile : String → Bool
  loadModule : String → ModuleOutcome R
  freshRouter : R

/-- The per-mode default glob pattern. -/
def defaultPattern (isDevelopment : Bool) : String :=
  if isDevelopment then "src/routes/*.ts" else "dist/routes/*.js"

/-- `globPattern || defaultPattern`: JavaScript `||` falls through on the
empty string, which is falsy. -/
def choosePattern (globPattern : Option String) (isDevelopment : Bool) : String :=
  match globPattern with
  | some s => if s = "" then defaultPattern isDevelopment else s
  | none => defaultPattern isDevelopment

/-- The extension candidates must carry in the active mode. -/
def expectedExtension (isDevelopment : Bool) : String :=
  if isDevelopment then ".ts" else ".js"

/-- The message of the error the loader throws for a broken route file. -/
def errMsg (file cause : String) : String :=
  "Error when loading route file: " ++ file ++ " [ " ++ cause ++ " ]"

/-- The loop-body filter: `fs.statSync(file).isFile() &&
path.extname(file).toLowerCase() === expectedExtension`. -/
def passesFilter (env : LoadEnv R) (ext : String) (file : String) : Bool :=
  env.statIsFile file && toLowerCase (extname file) == ext

/-- One iteration of the loader's `for` loop: skip filtered-out files,
otherwise load the module and thread the router through its registration
function, wrapping any failure in an `errMsg` error. -/
def loadStep (env : LoadEnv R) (ext : String) (router : R) (file : String) :
    Except String R :=
  if passesFilter env ext file then
    match env.loadModule file with
    | .importError cause => .error (errMsg file cause)
    | .notFn cause => .error (errMsg file cause)
    | .fn register =>
      match register router with
      | .ok r => .ok r
      | .error cause => .error (errMsg file cause)
  else
    .ok router

/-- `RouteLoader(globPattern?)`.  Returns the `console.error` log
produced during discovery together with the loader's outcome: the
assembled router, or the error it throws. -/
def routeLoader (env : LoadEnv R) (globPattern : Option String) :
    List String × Except String R :=
  let pattern := choosePattern globPattern env.isDevelopment
  let ext := expectedExtension env.isDevelopment
  let (log, files) :=
    match env.glob pattern with
    | .ok fs => ([], fs)
    | .error e => ([e], [])
  (log, files.foldlM (loadStep env ext) env.freshRouter)

/-! ## Supporting lemmas -/

/-- How `parseShape` treats one field whose key is present in the input. -/
theorem parseShape_cons_found (k : String) (s : Schema) (rest : Shape)
    (fields : List (String × Value)) (v : Value) (h : fields.lookup k = some v) :
    parseShape (.cons k s rest) fields =
      match zparse s v, parseShape rest fields with
      | .ok pv, .ok out => .ok ((k, pv) :: out)
      | .ok _, .error is₂ => .error is₂
      | .error is₁, .ok _ => .error (atKey k is₁)
      | .error is₁, .error is₂ => .error (atKey k is₁ ++ is₂) := by
  simp only [parseShape, h]
  rcases zparse s v with is₁ | pv <;> rcases parseShape rest fields with is₂ | out <;> rfl

/-- Full evaluation of the combined schema of `build()` on an input that
carries exactly the three expected keys: each facet schema runs on its
own component, outputs are reassembled under the three keys, and issues
of all failing facets are concatenated under their key's path. -/
theorem zparse_build_triple (B Q P : Schema) (b q p : Value) :
    zparse (ContractBuilder.new B Q P).build
        (.vObj [("body", b), ("query", q), ("params", p)]) =
      match zparse B b, zparse Q q, zparse P p with
      | .ok x, .ok y, .ok z => .ok (.vObj [("body", x), ("query", y), ("params", z)])
      | .ok _, .ok _, .error ip => .error (atKey "params" ip)
      | .ok _, .error iq, .ok _ => .error (atKey "query" iq)
      | .ok _, .error iq, .error ip => .error (atKey "query" iq ++ atKey "params" ip)
      | .error ib, .ok _, .ok _ => .error (atKey "body" ib)
      | .error ib, .ok _, .error ip => .error (atKey "body" ib ++ atKey "params" ip)
      | .error ib, .error iq, .ok _ => .error (atKey "body" ib ++ atKey "query" iq)
      | .error ib, .error iq, .error ip =>
        .error (atKey "body" ib ++ (atKey "query" iq ++ atKey "params" ip)) := by
  have lb : List.lookup "body" [("body", b), ("query", q), ("params", p)] = some b := rfl
  have lq : List.lookup "query" [("body", b), ("query", q), ("params", p)] = some q := rfl
  have lp : List.lookup "params" [("body", b), ("query", q), ("params", p)] = some p := rfl
  simp only [ContractBuilder.new, ContractBuilder.build, zparse]
  rw [parseShape_cons_found _ _ _ _ _ lb, parseShape_cons_found _ _ _ _ _ lq,
    parseShape_cons_found _ _ _ _ _ lp]
  rcases zparse B b with ib | x <;> rcases zparse Q q with iq | y <;>
    rcases zparse P p with ip | z <;> rfl

/-- Replaying a chain of setter calls produces the builder whose facets
are the chain's final facet values. -/
theorem applyCalls_schemas (calls : List SetterCall) (b : ContractBuilder) :
    (applyCalls b calls).schemas =
      ⟨finalBody b.schemas.body calls, finalQuery b.schemas.query calls,
        finalParams b.schemas.params calls⟩ := by
  induction calls generalizing b with
  | nil => rfl
  | cons c cs ih =>
    cases c with
    | cBody s =>
      simpa [applyCalls, applyCall, finalBody, finalQuery, finalParams,
        ContractBuilder.body, ContractBuilder.new] using ih (b.body s)
    | cQuery s =>
      simpa [applyCalls, applyCall, finalBody, finalQuery, finalParams,
        ContractBuilder.query, ContractBuilder.new] using ih (b.query s)
    | cParams s =>
      simpa [applyCalls, applyCall, finalBody, finalQuery, finalParams,
        ContractBuilder.params, ContractBuilder.new] using ih (b.params s)

/-- View a builder of the newer variant as one of the earlier variant. -/
def toB2 (b : ContractBuilder) : ContractBuilder2 :=
  ⟨b.schemas.body, b.schemas.query, b.schemas.params⟩

theorem applyCall2_toB2 (b : ContractBuilder) (c : SetterCall) :
    applyCall2 (toB2 b) c = toB2 (applyCall b c) := by
  cases c <;> rfl

theorem applyCalls2_toB2 (calls : List SetterCall) (b : ContractBuilder) :
    applyCalls2 (toB2 b) calls = toB2 (applyCalls b calls) := by
  induction calls generalizing b with
  | nil => rfl
  | cons c cs ih =>
    simp only [applyCalls2, applyCalls, List.foldl_cons, applyCall2_toB2]
    exact ih (applyCall b c)

theorem build_toB2 (b : ContractBuilder) : (toB2 b).build = b.build := rfl

/-- A fold of `loadStep` in which every passing file's module is a total
registration function computes the left-to-right composition of those
functions over the passing files, skipping the filtered-out ones. -/
theorem foldlM_loadStep_ok {R : Type} (env : LoadEnv R) (ext : String)
    (register : String → R → R) (files : List String) (r0 : R)
    (hmod : ∀ f ∈ files, passesFilter env ext f = true →
      env.loadModule f = .fn (fun r => .ok (register f r))) :
    files.foldlM (loadStep env ext) r0 =
      .ok ((files.filter (passesFilter env ext)).foldl (fun r f => register f r) r0) := by
  induction files generalizing r0 with
  | nil => rfl
  | cons f fs ih =>
    have hmod' : ∀ g ∈ fs, passesFilter env ext g = true →
        env.loadModule g = .fn (fun r => .ok (register g r)) :=
      fun g hg => hmod g (List.mem_cons_of_mem f hg)
    show loadStep env ext r0 f >>= (fun r => fs.foldlM (loadStep env ext) r) = _
    by_cases hf : passesFilter env ext f = true
    · have hstep : loadStep env ext r0 f = .ok (register f r0) := by
        simp [loadStep, hf, hmod f (List.mem_cons_self f fs) hf]
      rw [hstep]
      show fs.foldlM (loadStep env ext) (register f r0) = _
      rw [ih (register f r0) hmod']
      simp [List.filter_cons_of_pos, hf]
    · have hstep : loadStep env ext r0 f = .ok r0 := by
        simp [loadStep, hf]
      rw [hstep]
      show fs.foldlM (loadStep env ext) r0 = _
      rw [ih r0 hmod']
      simp [List.filter_cons_of_neg, hf]

/-! ## Claims -/

/-- C1 as stated is false: `z.object({})`, the default of every unset
facet, runs in zod's default strip mode, so the combined schema of a
Contract built without a query setter *accepts* an input whose query
component carries a key, stripping the key — it does not reject it. -/
theorem C1_counterexample :
    zparse createContract.build
        (.vObj [("body", .vObj []), ("query", .vObj [("extra", .vStr "1")]),
          ("params", .vObj [])]) =
      .ok (.vObj [("body", .vObj []), ("query", .vObj []), ("params", .vObj [])]) := rfl

/-- C1 (amended): every unset facet defaults to the empty object schema,
which accepts any object component — stripping all of its keys, so the
facet's parsed output is always the empty object — and rejects any
non-object value. -/
theorem C1_unset_facets_strip :
    (∀ bf qf pf : List (String × Value),
      zparse createContract.build
          (.vObj [("body", .vObj bf), ("query", .vObj qf), ("params", .vObj pf)]) =
        .ok (.vObj [("body", .vObj []), ("query", .vObj []), ("params", .vObj [])]))
    ∧ (∀ v : Value, (∀ fs, v ≠ .vObj fs) →
        ∃ msg, zparse EMPTY_SCHEMA v = .error [([], msg)]) := by
  constructor
  · intro bf qf pf; rfl
  · intro v h
    cases v <;> first | exact absurd rfl (h _) | exact ⟨_, rfl⟩

/-- Witness for C1: the amended theorem applied to a populated query
object and to a non-object query value. -/
theorem C1_witness :
    zparse createContract.build
        (.vObj [("body", .vObj []), ("query", .vObj [("name", .vStr "n")]),
          ("params", .vObj [])]) =
      .ok (.vObj [("body", .vObj []), ("query", .vObj []), ("params", .vObj [])])
    ∧ ∃ msg, zparse EMPTY_SCHEMA (.vStr "x") = .error [([], msg)] :=
  ⟨C1_unset_facets_strip.1 [] [("name", .vStr "n")] [],
   C1_unset_facets_strip.2 (.vStr "x") (fun _ h => Value.noConfusion h)⟩

/-- C2: when the contract's combined schema accepts the assembled input,
the middleware attaches exactly the parsed output under `validated` and
calls through; when it rejects the input, the middleware responds 400
with exactly the issues found and never calls through; and on a built
contract a violation in every facet yields one entry per violation,
concatenated — never only the first.  The middleware itself is modelled
from the spec (its source is not in the snapshot). -/
theorem C2_validation_middleware (C : Schema) (req : Request) :
    (∀ v, zparse C (assembleInput req) = .ok v →
      validateContract C req = .callThrough { req with validated := some v })
    ∧ (∀ issues, zparse C (assembleInput req) = .error issues →
      validateContract C req = .respond 400 issues ∧
        ∀ req', validateContract C req ≠ .callThrough req')
    ∧ (∀ B Q P ib iq ip,
      zparse B req.body = .error ib → zparse Q req.query = .error iq →
      zparse P req.params = .error ip →
      validateContract (ContractBuilder.new B Q P).build req =
        .respond 400 (atKey "body" ib ++ (atKey "query" iq ++ atKey "params" ip))) := by
  refine ⟨?_, ?_, ?_⟩
  · intro v h
    simp [validateContract, h]
  · intro issues h
    refine ⟨by simp [validateContract, h], fun req' => by simp [validateContract, h]⟩
  · intro B Q P ib iq ip hb hq hp
    have ht := zparse_build_triple B Q P req.body req.query req.params
    rw [hb, hq, hp] at ht
    simp only [validateContract, assembleInput, ht]

/-- Witness for C2: a passing request gets `validated` attached and is
passed on; a failing request is answered 400 with the violation list. -/
theorem C2_witness :
    validateContract createContract.build
        { body := .vObj [], query := .vObj [], params := .vObj [] } =
      .callThrough ⟨.vObj [], .vObj [], .vObj [],
        some (.vObj [("body", .vObj []), ("query", .vObj []), ("params", .vObj [])])⟩
    ∧ validateContract (createContract.query (.sObject (.cons "name" .sString .nil))).build
        { body := .vObj [], query := .vObj [], params := .vObj [] } =
      .respond 400 [(["query", "name"], "Required")] :=
  ⟨(C2_validation_middleware createContract.build
      { body := .vObj [], query := .vObj [], params := .vObj [] }).1 _ rfl,
   ((C2_validation_middleware
      (createContract.query (.sObject (.cons "name" .sString .nil))).build
      { body := .vObj [], query := .vObj [], params := .vObj [] }).2.1
      [(["query", "name"], "Required")] rfl).1⟩

/-- C3: `build()` is the object schema with exactly the keys `body`,
`query`, `params` carrying the three facet schemas, and it accepts an
input with those three components exactly when each facet schema accepts
its component, reassembling the three parsed outputs. -/
theorem C3_build_object_of_three (B Q P : Schema) (b q p r : Value) :
    (ContractBuilder.new B Q P).build =
      .sObject (.cons "body" B (.cons "query" Q (.cons "params" P .nil)))
    ∧ (zparse (ContractBuilder.new B Q P).build
          (.vObj [("body", b), ("query", q), ("params", p)]) = .ok r ↔
        ∃ x y z, zparse B b = .ok x ∧ zparse Q q = .ok y ∧ zparse P p = .ok z ∧
          r = .vObj [("body", x), ("query", y), ("params", z)]) := by
  refine ⟨rfl, ?_⟩
  rw [zparse_build_triple]
  rcases hb : zparse B b with ib | x <;> rcases hq : zparse Q q with iq | y <;>
    rcases hp : zparse P p with ip | z <;> simp [eq_comm]

/-- C4: unrelated facet assignments commute — the two-setter chains in
either order build the same combined schema, and in general any two
chains of setter calls ending with the same final facet values build
observably equivalent combined schemas. -/
theorem C4_facet_commutativity :
    (∀ (bld : ContractBuilder) (A B : Schema) (v : Value),
      zparse ((bld.body A).query B).build v = zparse ((bld.query B).body A).build v)
    ∧ (∀ (b₁ b₂ : ContractBuilder) (cs₁ cs₂ : List SetterCall),
      finalBody b₁.schemas.body cs₁ = finalBody b₂.schemas.body cs₂ →
      finalQuery b₁.schemas.query cs₁ = finalQuery b₂.schemas.query cs₂ →
      finalParams b₁.schemas.params cs₁ = finalParams b₂.schemas.params cs₂ →
      ∀ v : Value, zparse (applyCalls b₁ cs₁).build v = zparse (applyCalls b₂ cs₂).build v) := by
  constructor
  · intro bld A B v; rfl
  · intro b₁ b₂ cs₁ cs₂ h₁ h₂ h₃ v
    have hs : (applyCalls b₁ cs₁).schemas = (applyCalls b₂ cs₂).schemas := by
      rw [applyCalls_schemas, applyCalls_schemas, h₁, h₂, h₃]
    have hb : (applyCalls b₁ cs₁).build = (applyCalls b₂ cs₂).build := by
      unfold ContractBuilder.build
      rw [hs]
    rw [hb]

/-- Witness for C4: `body(A).query(B)` and `query(B).body(A)` replayed
from a fresh builder agree on a concrete input. -/
theorem C4_witness :
    zparse (applyCalls createContract
        [.cBody (.sObject (.cons "a" .sString .nil)),
         .cQuery (.sObject (.cons "n" .sNumber .nil))]).build
        (.vObj [("body", .vObj [("a", .vStr "x")]), ("query", .vObj [("n", .vNum 3)]),
          ("params", .vObj [])]) =
      zparse (applyCalls createContract
        [.cQuery (.sObject (.cons "n" .sNumber .nil)),
         .cBody (.sObject (.cons "a" .sString .nil))]).build
        (.vObj [("body", .vObj [("a", .vStr "x")]), ("query", .vObj [("n", .vNum 3)]),
          ("params", .vObj [])]) :=
  C4_facet_commutativity.2 createContract createContract _ _ rfl rfl rfl _

/-- C5: each facet setter is pure replacement — the result carries the
argument at exactly the named facet and the receiver's other two facets
unchanged; the receiver itself is a value the setter never mutates, so
setter calls on the same builder cannot affect each other. -/
theorem C5_setters_pure_replacement (b : ContractBuilder) (A : Schema) :
    ((b.body A).schemas.body = A ∧ (b.body A).schemas.query = b.schemas.query ∧
      (b.body A).schemas.params = b.schemas.params)
    ∧ ((b.query A).schemas.query = A ∧ (b.query A).schemas.body = b.schemas.body ∧
      (b.query A).schemas.params = b.schemas.params)
    ∧ ((b.params A).schemas.params = A ∧ (b.params A).schemas.body = b.schemas.body ∧
      (b.params A).schemas.query = b.schemas.query) :=
  ⟨⟨rfl, rfl, rfl⟩, ⟨rfl, rfl, rfl⟩, ⟨rfl, rfl, rfl⟩⟩

/-- C10: the two ContractBuilder implementations in the repository are
behaviorally equivalent on their common domain — replaying any chain of
object-schema setter calls against either fresh builder yields combined
schemas with identical parse behavior. -/
theorem C10_builders_equivalent (calls : List SetterCall)
    (hobj : ∀ c ∈ calls, c.isObjectCall) (v : Value) :
    zparse (applyCalls createContract calls).build v =
      zparse (applyCalls2 createContract2 calls).build v := by
  have h0 : createContract2 = toB2 createContract := rfl
  rw [h0, applyCalls2_toB2, build_toB2]

/-- Witness for C10: the repository's own example contract (a single
query-schema setter) behaves identically under either builder. -/
theorem C10_witness :
    zparse (applyCalls createContract
        [.cQuery (.sObject (.cons "name" .sString .nil))]).build
        (.vObj [("body", .vObj []), ("query", .vObj [("name", .vStr "Jo")]),
          ("params", .vObj [])]) =
      zparse (applyCalls2 createContract2
        [.cQuery (.sObject (.cons "name" .sString .nil))]).build
        (.vObj [("body", .vObj []), ("query", .vObj [("name", .vStr "Jo")]),
          ("params", .vObj [])]) :=
  C10_builders_equivalent _
    (by
      intro c hc
      rw [List.mem_singleton] at hc
      subst hc
      exact ⟨_, rfl⟩) _

/-- C6: when a candidate file that passes the filter is reached (every
earlier candidate registered successfully) and its module has no
callable registration function, or importing it or invoking its
registration function throws, the loader as a whole fails with an error
whose message contains the file's path and the underlying cause, and no
router is returned. -/
theorem C6_loader_fatal_on_bad_module {R : Type} (env : LoadEnv R) (gp : Option String)
    (pre post : List String) (f : String) (ρ : R) (cause : String)
    (hglob : env.glob (choosePattern gp env.isDevelopment) = .ok (pre ++ f :: post))
    (hpre : pre.foldlM (loadStep env (expectedExtension env.isDevelopment))
      env.freshRouter = .ok ρ)
    (hfilter : passesFilter env (expectedExtension env.isDevelopment) f = true)
    (hfail : env.loadModule f = .importError cause ∨ env.loadModule f = .notFn cause ∨
      ∃ register, env.loadModule f = .fn register ∧ register ρ = .error cause) :
    (routeLoader env gp).2 = .error (errMsg f cause)
    ∧ (∃ s t, errMsg f cause = s ++ (f ++ t))
    ∧ (∃ s t, errMsg f cause = s ++ (cause ++ t)) := by
  refine ⟨?_, ⟨"Error when loading route file: ", " [ " ++ cause ++ " ]", ?_⟩,
    ⟨"Error when loading route file: " ++ f ++ " [ ", " ]", ?_⟩⟩
  · have hstep : loadStep env (expectedExtension env.isDevelopment) ρ f =
        .error (errMsg f cause) := by
      rcases hfail with h | h | ⟨register, h, hreg⟩
      · simp [loadStep, hfilter, h]
      · simp [loadStep, hfilter, h]
      · simp [loadStep, hfilter, h, hreg]
    simp only [routeLoader, hglob]
    rw [List.foldlM_append, hpre]
    show loadStep env (expectedExtension env.isDevelopment) ρ f >>=
      (fun r => post.foldlM (loadStep env (expectedExtension env.isDevelopment)) r) = _
    rw [hstep]
    rfl
  · simp [errMsg, String.append_assoc]
  · simp [errMsg, String.append_assoc]

/-- A loader environment whose single discovered route file has no
callable registration function. -/
def envBadModule : LoadEnv Nat where
  isDevelopment := true
  glob := fun _ => .ok ["src/routes/broken.ts"]
  statIsFile := fun _ => true
  loadModule := fun _ => .notFn "TypeError: routeModule.default is not a function"
  freshRouter := 0

/-- Witness for C6: the loader fails on the broken module and its error
message embeds the file path and the cause. -/
theorem C6_witness :
    (routeLoader envBadModule none).2 =
      .error (errMsg "src/routes/broken.ts"
        "TypeError: routeModule.default is not a function")
    ∧ (∃ s t, errMsg "src/routes/broken.ts"
        "TypeError: routeModule.default is not a function" =
        s ++ ("src/routes/broken.ts" ++ t))
    ∧ (∃ s t, errMsg "src/routes/broken.ts"
        "TypeError: routeModule.default is not a function" =
        s ++ ("TypeError: routeModule.default is not a function" ++ t)) :=
  C6_loader_fatal_on_bad_module envBadModule none [] [] "src/routes/broken.ts" 0
    "TypeError: routeModule.default is not a function" rfl rfl rfl (.inr (.inl rfl))

/-- C7: a throw during glob resolution is logged and treated as an empty
discovery result — the loader returns the fresh (empty) router normally
instead of propagating the error. -/
theorem C7_glob_error_empty_router {R : Type} (env : LoadEnv R) (gp : Option String)
    (e : String) (hglob : env.glob (choosePattern gp env.isDevelopment) = .error e) :
    routeLoader env gp = ([e], .ok env.freshRouter) := by
  simp only [routeLoader, hglob]
  rfl

/-- A loader environment whose glob resolution throws. -/
def envGlobThrows : LoadEnv Nat where
  isDevelopment := false
  glob := fun _ => .error "Error: EACCES: permission denied"
  statIsFile := fun _ => false
  loadModule := fun _ => .notFn "TypeError"
  freshRouter := 0

/-- Witness for C7: the glob error is logged and the empty router is
returned. -/
theorem C7_witness :
    routeLoader envGlobThrows none = (["Error: EACCES: permission denied"], .ok 0) :=
  C7_glob_error_empty_router envGlobThrows none "Error: EACCES: permission denied" rfl

/-- C8: candidates are processed in discovery order; each passing file's
registration function is invoked with the current shared router and its
return value becomes the shared router, so the loader returns the
left-to-right fold of the registration functions over the passing files
— the router returned by the final module's call. -/
theorem C8_sequential_fold {R : Type} (env : LoadEnv R) (gp : Option String)
    (files : List String) (register : String → R → R)
    (hglob : env.glob (choosePattern gp env.isDevelopment) = .ok files)
    (hmod : ∀ f ∈ files, passesFilter env (expectedExtension env.isDevelopment) f = true →
      env.loadModule f = .fn (fun r => .ok (register f r))) :
    routeLoader env gp = ([],
      .ok ((files.filter (passesFilter env (expectedExtension env.isDevelopment))).foldl
        (fun r f => register f r) env.freshRouter)) := by
  simp only [routeLoader, hglob]
  rw [foldlM_loadStep_ok env _ register files env.freshRouter hmod]

/-- A loader environment discovering two route files and one non-route
file, each route module appending its own path to a list-router. -/
def envTwoRoutes : LoadEnv (List String) where
  isDevelopment := true
  glob := fun _ => .ok ["src/routes/a.ts", "src/routes/b.ts", "src/routes/notes.md"]
  statIsFile := fun _ => true
  loadModule := fun f => .fn (fun r => .ok (r ++ [f]))
  freshRouter := []

/-- Witness for C8: the two `.ts` files register in discovery order, the
`.md` file is skipped. -/
theorem C8_witness :
    routeLoader envTwoRoutes none = ([], .ok ["src/routes/a.ts", "src/routes/b.ts"]) := by
  rw [C8_sequential_fold envTwoRoutes none
    ["src/routes/a.ts", "src/routes/b.ts", "src/routes/notes.md"]
    (fun f r => r ++ [f]) rfl (fun f _ _ => rfl)]
  rfl

/-- C9 as stated is false on one point: an explicitly supplied *empty*
pattern argument is not used — JavaScript `||` treats `""` as absent, so
the mode's default pattern applies instead. -/
theorem C9_counterexample :
    choosePattern (some "") true = "src/routes/*.ts" ∧ "src/routes/*.ts" ≠ "" :=
  ⟨rfl, by decide⟩

/-- C9 (amended): in development mode the default pattern is
`src/routes/*.ts` and only regular files whose lowercased extension is
`.ts` are loaded; otherwise the default is `dist/routes/*.js` with `.js`;
a supplied *non-empty* pattern is used instead of the default in either
mode, while a supplied empty string falls back to the default. -/
theorem C9_mode_selection :
    (choosePattern none true = "src/routes/*.ts" ∧ expectedExtension true = ".ts")
    ∧ (choosePattern none false = "dist/routes/*.js" ∧ expectedExtension false = ".js")
    ∧ (∀ p : String, p ≠ "" → ∀ d : Bool, choosePattern (some p) d = p)
    ∧ (∀ (R : Type) (env : LoadEnv R) (ext : String) (r : R) (f : String),
      passesFilter env ext f = false → loadStep env ext r f = .ok r)
    ∧ (∀ (R : Type) (env : LoadEnv R) (f : String),
      passesFilter env (expectedExtension env.isDevelopment) f = true →
      env.statIsFile f = true ∧
        toLowerCase (extname f) = expectedExtension env.isDevelopment) := by
  refine ⟨⟨rfl, rfl⟩, ⟨rfl, rfl⟩, ?_, ?_, ?_⟩
  · intro p hp d
    simp [choosePattern, hp]
  · intro R env ext r f h
    simp [loadStep, h]
  · intro R env f h
    simpa only [passesFilter, Bool.and_eq_true, beq_iff_eq] using h

/-- Witness for C9: a non-empty explicit pattern is used verbatim, and a
file failing the filter is skipped with the router unchanged. -/
theorem C9_witness :
    choosePattern (some "dist/extra/*.js") true = "dist/extra/*.js"
    ∧ loadStep envTwoRoutes ".ts" ["r"] "src/routes/notes.md" = .ok ["r"] :=
  ⟨C9_mode_selection.2.2.1 "dist/extra/*.js" (by decide) true,
   C9_mode_selection.2.2.2.1 (List String) envTwoRoutes ".ts" ["r"]
     "src/routes/notes.md" rfl⟩

end S2P
